import Mathlib

/-!
# Verification of the Fin-Traq baseline / leakage / allocation core

Shallow embedding of the Python sources under `src/` (Decimal values are
modelled as exact rationals `ℚ`; `Decimal.quantize(Decimal("0.01"))` is
modelled by `quantize2` below).  Each service function keeps its source
name; database reads are passed in as explicit arguments (the query
result), which is the boundary the spec itself draws around persistence.
-/

namespace FinTraq

/-- Model of `Decimal.quantize(Decimal("0.01"))`: round to two decimal
places.  We round halves up; the source mixes `ROUND_HALF_UP` and the
context default `ROUND_HALF_EVEN`, which differ only on exact half-cent
ties — none of the properties proved below depend on tie behaviour (the
proofs use only monotonicity, the identity on two-decimal values, and
concrete non-tie evaluations). -/
def quantize2 (q : ℚ) : ℚ := (⌊q * 100 + 1 / 2⌋ : ℤ) / 100

/-- A rational that is an exact two-decimal-place amount (what every
`DECIMAL(10,2)` column and every already-quantized value is). -/
def TwoDP (q : ℚ) : Prop := ∃ z : ℤ, q = z / 100

/-! ## `src/ml/efs_calculator.py` -/

/-- The household composition fields read from the `User` row
(`profile_data` dict in `calculate_and_save_financial_profile`). -/
structure ProfileData where
  num_adults : ℕ
  num_dependents_under_6 : ℕ
  num_dependents_6_to_17 : ℕ
  num_dependents_over_18 : ℕ

/-- `calculate_equivalent_family_size` (src/ml/efs_calculator.py):
first adult 1.00, additional adults 0.75 each, dependents 18+ 0.50,
6–17 0.33, under 6 0.25, quantized to two decimals. -/
def calculate_equivalent_family_size (p : ProfileData) : ℚ :=
  let efs : ℚ := 1
  let efs := if p.num_adults > 1 then
      efs + ((p.num_adults - 1 : ℕ) : ℚ) * (75 / 100) else efs
  let efs := efs + (p.num_dependents_over_18 : ℚ) * (50 / 100)
  let efs := efs + (p.num_dependents_6_to_17 : ℚ) * (33 / 100)
  let efs := efs + (p.num_dependents_under_6 : ℚ) * (25 / 100)
  quantize2 efs

/-! ## `src/services/benchmarking_service.py` -/

def MIN_COHORT_SIZE : ℕ := 5
def BEST_USER_PERCENTILE : ℚ := 20 / 100
def DEFAULT_FALLBACK_FACTOR : ℚ := 85 / 100

/-- A cohort member's `SalaryAllocationProfile` row, as selected by the
similarity query in `calculate_benchmark_factor` (the query itself —
EFS/fixed-total bands, same city tier, other users only — is the external
persistence collaborator; its result list is this function's input). -/
structure CohortProfile where
  net_monthly_income : ℚ
  fixed_commitment_total : ℚ
  variable_spend_total : Option ℚ

/-- The per-member efficiency ratio loop body of
`calculate_benchmark_factor`: members whose variable pool is not positive
contribute no ratio; a missing `variable_spend_total` falls back to 40%
of the pool. -/
def memberEfficiency (p : CohortProfile) : Option ℚ :=
  let variable_income_pool := p.net_monthly_income - p.fixed_commitment_total
  let variable_spend :=
    match p.variable_spend_total with
    | none => variable_income_pool * (40 / 100)
    | some v => v
  if variable_income_pool > 0 then some (variable_spend / variable_income_pool)
  else none

/-- `calculate_benchmark_factor` (src/services/benchmarking_service.py),
given the cohort returned by the similarity query.  Cohort smaller than
`MIN_COHORT_SIZE` ⇒ the documented fallback constant; otherwise the mean
ratio of the lowest-20% (at least one) members, quantized. -/
def calculate_benchmark_factor (cohort : List CohortProfile) : ℚ :=
  if cohort.length < MIN_COHORT_SIZE then DEFAULT_FALLBACK_FACTOR
  else
    let efficiency_ratios := cohort.filterMap memberEfficiency
    if efficiency_ratios = [] then DEFAULT_FALLBACK_FACTOR
    else
      let sorted := efficiency_ratios.mergeSort (· ≤ ·)
      let best_user_count :=
        Max.max 1 (⌊(sorted.length : ℚ) * BEST_USER_PERCENTILE⌋.toNat)
      let best_user_ratios := sorted.take best_user_count
      quantize2 (best_user_ratios.sum / (best_user_ratios.length : ℚ))

/-! ## `src/ml/scaling_logic.py` -/

def BASE_NEEDS_INDEX : List (String × ℚ) := [
  ("Variable_Essential_Food", 5000),
  ("Variable_Essential_Transport", 2500),
  ("Variable_Essential_Health", 1500),
  ("Scaled_Discretionary_Routine", 1000)]

/-- `CITY_COST_MULTIPLIERS.get(city_tier, Decimal("1.00"))`. -/
def CITY_COST_MULTIPLIERS (city_tier : String) : ℚ :=
  if city_tier = "Tier 1" then 125 / 100
  else if city_tier = "Tier 2" then 110 / 100
  else if city_tier = "Tier 3" then 1
  else if city_tier = "Tier 4" then 90 / 100
  else 1

/-- `DEFAULT_EFFICIENCY_FACTORS.get(income_slab, Decimal("1.00"))`. -/
def DEFAULT_EFFICIENCY_FACTORS (income_slab : String) : ℚ :=
  if income_slab = "High" then 90 / 100
  else if income_slab = "Medium" then 1
  else if income_slab = "Low" then 105 / 100
  else 1

def LEAK_SAVINGS_MARGIN_PERCENTAGE : ℚ := 15 / 100

/-- One iteration of the per-category loop in `calculate_dynamic_baseline`:
extends the baselines dict (kept as an ordered association list, like a
Python dict) and accumulates `total_minimal_need_dmb`. -/
def baselineStep (efs city eff : ℚ) (acc : List (String × ℚ) × ℚ)
    (entry : String × ℚ) : List (String × ℚ) × ℚ :=
  let category_dmb := quantize2 (entry.2 * efs * city * eff)
  let category_threshold :=
    quantize2 (category_dmb * (1 - LEAK_SAVINGS_MARGIN_PERCENTAGE))
  (acc.1 ++ [(entry.1, category_threshold)], acc.2 + category_dmb)

/-- `calculate_dynamic_baseline` (src/ml/scaling_logic.py).  Returns the
dict mapping each category to its leakage threshold, plus the three
aggregate keys, in insertion order.  (`net_income` is a parameter of the
source function but is not read by its body.) -/
def calculate_dynamic_baseline (net_income equivalent_family_size : ℚ)
    (city_tier income_slab : String)
    (benchmark_efficiency_factor : Option ℚ) : List (String × ℚ) :=
  let efficiency_factor :=
    match benchmark_efficiency_factor with
    | some f => f
    | none => DEFAULT_EFFICIENCY_FACTORS income_slab
  let city_multiplier := CITY_COST_MULTIPLIERS city_tier
  let folded := BASE_NEEDS_INDEX.foldl
    (baselineStep equivalent_family_size city_multiplier efficiency_factor) ([], 0)
  let final_leakage_threshold := quantize2 ((folded.1.map (·.2)).sum)
  let total_minimal_need := quantize2 folded.2
  folded.1 ++
    [("Total_Leakage_Threshold", final_leakage_threshold),
     ("Total_Minimal_Need_DMB", total_minimal_need),
     ("Potential_Recoverable_Fund",
        quantize2 (total_minimal_need - final_leakage_threshold))]

/-- Modelled from the spec's words, for refinement comparison only (claim
C5): the claimed five-factor per-category DMB
`base_need × EFS × region_multiplier × income_multiplier × efficiency_factor`,
with the income-band multiplier read from the source's income-band table. -/
def category_dmb_spec_five_factor (base efs city income_mult eff : ℚ) : ℚ :=
  base * efs * city * income_mult * eff

/-! ## `src/services/leakage_service.py` -/

def GLOBAL_MINIMAL_BASELINE_FLOOR : ℚ := 15000
def ANNUAL_MAX_TAX_SAVING_LIMIT : ℚ := 150000

/-- The three aggregate keys that the category loops of
`calculate_final_dmb_with_history` and `calculate_leakage` skip. -/
def AGGREGATE_KEYS : List String :=
  ["Total_Leakage_Threshold", "Total_Minimal_Need_DMB", "Potential_Recoverable_Fund"]

/-- A categorized debit transaction row inside the lookback window, as
returned by the query in `_calculate_user_historical_spend` (the date
filter, category exclusion and DEBIT filter are the query; `month` models
`transaction_date.replace(day=1)`). -/
structure Tx where
  category : String
  month : ℕ
  amount : ℚ
deriving DecidableEq

/-- The per-category monthly totals accumulated by
`_calculate_user_historical_spend`: one total per distinct month in which
the category was spent. -/
def monthlyTotals (txs : List Tx) (c : String) : List ℚ :=
  (((txs.filter (fun t => t.category = c)).map (·.month)).dedup).map
    (fun m => ((txs.filter (fun t => t.category = c ∧ t.month = m)).map
        (·.amount)).sum)

/-- The median step of `_calculate_user_historical_spend`: sort the
monthly totals; odd count takes the middle element, even count averages
the two middle elements. -/
def median2 (l : List ℚ) : ℚ :=
  let s := l.mergeSort (· ≤ ·)
  let n := s.length
  if n % 2 = 1 then s.getD (n / 2) 0
  else (s.getD (n / 2 - 1) 0 + s.getD (n / 2) 0) / 2

/-- `_calculate_user_historical_spend(reporting_period)[c]` composed with
the caller's `.get(c, Decimal("0.00"))`: 0 when the category has no
transactions in the window, the quantized median of its monthly totals
otherwise. -/
def historicalMedian (txs : List Tx) (c : String) : ℚ :=
  if txs.filter (fun t => t.category = c) = [] then 0
  else quantize2 (median2 (monthlyTotals txs c))

/-- `calculate_final_dmb_with_history` (first component of its returned
pair): aggregate keys pass through; every category entry becomes
`max(EFS-threshold, user historical median)`, quantized. -/
def calculate_final_dmb_with_history (txs : List Tx)
    (dynamic_baselines : List (String × ℚ)) : List (String × ℚ) :=
  dynamic_baselines.map (fun e =>
    if e.1 ∈ AGGREGATE_KEYS then e
    else (e.1, quantize2 (max e.2 (historicalMedian txs e.1))))

/-- `_calculate_tax_headroom_leak`: YTD committed tax spend (falling back
to `fixed_commitment_total × months_passed` when no explicit tax
commitments exist), subtracted from the annual limit and clamped at 0. -/
def tax_headroom_leak (ytd_committed_tax_spend fixed_commitment_total : ℚ)
    (months_passed : ℕ) : ℚ :=
  let ytd := if ytd_committed_tax_spend = 0
    then fixed_commitment_total * (months_passed : ℚ)
    else ytd_committed_tax_spend
  max 0 (ANNUAL_MAX_TAX_SAVING_LIMIT - ytd)

/-- One leakage bucket of the Leakage Bucket View (the
`leak_percentage_of_spend` display string, derivable from the other
fields, is omitted). -/
structure LeakageBucket where
  category : String
  baseline_threshold : ℚ
  spend : ℚ
  leak_source : String
  leak_amount : ℚ
deriving DecidableEq

def PD_CATEGORIES : List String :=
  ["Pure_Discretionary_DiningOut", "Pure_Discretionary_Gadget"]

/-- One iteration of the scaled-category (VE & SD) loop of
`calculate_leakage`: aggregate keys are skipped, a bucket is appended
only when the month-to-date spend is positive, and its leak amount is
`max(0, spend − dmb_threshold)`. -/
def scaledBucket (spends : String → ℚ) (e : String × ℚ) : Option LeakageBucket :=
  if e.1 ∈ AGGREGATE_KEYS then none
  else
    let spend := spends e.1
    let leak_amount := max 0 (spend - e.2)
    if spend > 0 then
      some { category := e.1, baseline_threshold := quantize2 e.2,
             spend := quantize2 spend,
             leak_source := if leak_amount > 0 then "Above Dynamic Minimal Baseline"
               else "Within Baseline (Achieving Flow)",
             leak_amount := quantize2 leak_amount }
    else none

/-- One iteration of the Pure-Discretionary loop of `calculate_leakage`:
no baseline, the whole positive spend is the leak. -/
def pdBucket (spends : String → ℚ) (c : String) : Option LeakageBucket :=
  let spend := spends c
  if spend > 0 then
    some { category := c, baseline_threshold := quantize2 0,
           spend := quantize2 spend,
           leak_source := "100% Discretionary Spend (Goal Opportunity)",
           leak_amount := quantize2 spend }
  else none

/-- The category buckets produced by steps 3 and 4 of `calculate_leakage`
(the synthetic tax-headroom bucket of step 7 is appended separately). -/
def leakage_buckets (final_dmb : List (String × ℚ)) (spends : String → ℚ) :
    List LeakageBucket :=
  final_dmb.filterMap (scaledBucket spends) ++
    PD_CATEGORIES.filterMap (pdBucket spends)

/-- The `variable_leakage` accumulator of `calculate_leakage`: scaled
categories contribute their positive leaks, Pure-Discretionary categories
their positive spends. -/
def variable_leakage (final_dmb : List (String × ℚ)) (spends : String → ℚ) : ℚ :=
  final_dmb.foldl (fun acc e =>
      if e.1 ∈ AGGREGATE_KEYS then acc
      else
        let spend := spends e.1
        let leak_amount := max 0 (spend - e.2)
        if spend > 0 ∧ leak_amount > 0 then acc + leak_amount else acc) 0
  + PD_CATEGORIES.foldl (fun acc c =>
      if spends c > 0 then acc + spends c else acc) 0

/-- Step 6 of `calculate_leakage`, the GMB guardrail clamp:
`absolute_floor = fixed + GLOBAL_MINIMAL_BASELINE_FLOOR`,
`max_possible_leakage = max(0, net − absolute_floor)`, and the projected
reclaimable salary is `min(total_leakage, max_possible_leakage)`. -/
def projectedReclaimable (total_leakage net_income fixed_commitments : ℚ) : ℚ :=
  let absolute_floor := fixed_commitments + GLOBAL_MINIMAL_BASELINE_FLOOR
  let max_possible_leakage := max 0 (net_income - absolute_floor)
  min total_leakage max_possible_leakage

/-- The `SalaryAllocationProfile` row (src/db/models.py); every column is
`DECIMAL(10,2) NOT NULL`. -/
structure SalaryAllocationProfile where
  net_monthly_income : ℚ
  fixed_commitment_total : ℚ
  variable_spend_total : ℚ
  projected_reclaimable_salary : ℚ
  total_autotransferred : ℚ
  tax_headroom_remaining : ℚ
deriving DecidableEq

/-- The `User` columns read by the leakage pipeline. -/
structure UserRec where
  monthly_salary : ℚ
  city_tier : String
  income_slab : String
deriving DecidableEq

/-- The `FinancialProfile` columns read by the leakage pipeline
(`e_family_size` is nullable). -/
structure FinProfileRec where
  e_family_size : Option ℚ
deriving DecidableEq

/-- The two kinds of raise the leakage path distinguishes: the named
`sqlalchemy.exc.NoResultFound` and a bare `Exception(msg)`. -/
inductive PyError where
  | noResultFound (msg : String)
  | genericError (msg : String)
deriving DecidableEq

/-- `str(e)` on a caught error: its message. -/
def PyError.msg : PyError → String
  | noResultFound m => m
  | genericError m => m

def EFS_MISSING_MSG : String :=
  "Financial Profile or Equivalent Family Size not found. Run OrchestrationService first to calculate EFS."

/-- `_fetch_profile_data_and_baselines`: raises `NoResultFound` when the
user row is missing, or when the financial profile is missing or its
`e_family_size` is falsy (`None` or zero — Python's `not
profile.e_family_size`); otherwise returns the EFS and the dynamic
baselines.  (The source also creates the period's salary profile row if
absent, and obtains `benchmark_factor` from the benchmarking service;
both are passed in here.) -/
def fetch_profile_data_and_baselines (user_id : ℕ) (user : Option UserRec)
    (financial_profile : Option FinProfileRec)
    (salary_profile : SalaryAllocationProfile) (benchmark_factor : ℚ) :
    Except PyError (ℚ × List (String × ℚ)) :=
  match user with
  | none => .error (.noResultFound ("User ID " ++ toString user_id ++ " not found."))
  | some u =>
    match financial_profile with
    | none => .error (.noResultFound EFS_MISSING_MSG)
    | some fp =>
      match fp.e_family_size with
      | none => .error (.noResultFound EFS_MISSING_MSG)
      | some efs =>
        if efs = 0 then .error (.noResultFound EFS_MISSING_MSG)
        else .ok (efs, calculate_dynamic_baseline
          salary_profile.net_monthly_income efs u.city_tier u.income_slab
          (some benchmark_factor))

/-- The payload returned by `calculate_leakage`, together with the state
it persists onto the period's salary profile row. -/
structure LeakageResult where
  total_leakage_amount : ℚ
  projected_reclaimable_salary : ℚ
  tax_headroom_remaining : ℚ
  leakage_buckets : List LeakageBucket
  salary_profile_after : SalaryAllocationProfile
deriving DecidableEq

/-- Step 7 of `calculate_leakage`: the synthetic tax-headroom bucket,
appended only when the tax leak is positive. -/
def taxHeadroomBucket (tax_leak_amount : ℚ) : List LeakageBucket :=
  if tax_leak_amount > 0 then
    [{ category := "Tax Optimization Headroom (Annual)",
       baseline_threshold := ANNUAL_MAX_TAX_SAVING_LIMIT,
       spend := ANNUAL_MAX_TAX_SAVING_LIMIT - tax_leak_amount,
       leak_source := "Unused Tax Capacity (Salary Maximizer)",
       leak_amount := quantize2 tax_leak_amount }]
  else []

/-- `calculate_leakage` (src/services/leakage_service.py).  Any error
from `_fetch_profile_data_and_baselines` is caught and re-raised as a
bare `Exception` wrapping the message.  `current_spends` is the MTD
categorized-spend dict from `_get_current_month_spends` (whose two
Pure-Discretionary default entries of 0.00 change neither the lookups
nor the sum). -/
def calculate_leakage (user_id : ℕ) (user : Option UserRec)
    (financial_profile : Option FinProfileRec)
    (salary_profile : SalaryAllocationProfile) (benchmark_factor : ℚ)
    (history : List Tx) (current_spends : List (String × ℚ))
    (ytd_committed_tax_spend : ℚ) (months_passed : ℕ) :
    Except PyError LeakageResult :=
  match fetch_profile_data_and_baselines user_id user financial_profile
      salary_profile benchmark_factor with
  | .error e =>
      .error (.genericError ("Failed to initialize Leakage Service: " ++ e.msg))
  | .ok fetched =>
      let tax_leak_amount := tax_headroom_leak ytd_committed_tax_spend
        salary_profile.fixed_commitment_total months_passed
      let final_dmb := calculate_final_dmb_with_history history fetched.2
      let spends := fun c => (current_spends.lookup c).getD 0
      let total_leakage := variable_leakage final_dmb spends + tax_leak_amount
      let projected := projectedReclaimable total_leakage
        salary_profile.net_monthly_income salary_profile.fixed_commitment_total
      .ok {
        total_leakage_amount := quantize2 total_leakage,
        projected_reclaimable_salary := quantize2 projected,
        tax_headroom_remaining := quantize2 tax_leak_amount,
        leakage_buckets := leakage_buckets final_dmb spends ++
          taxHeadroomBucket tax_leak_amount,
        salary_profile_after := { salary_profile with
          projected_reclaimable_salary := projected,
          variable_spend_total := (current_spends.map (·.2)).sum,
          tax_headroom_remaining := quantize2 tax_leak_amount } }

/-- Discriminates results that surface as the named `NoResultFound`. -/
def isNoResultFoundError {α : Type} : Except PyError α → Bool
  | .error (.noResultFound _) => true
  | _ => false

/-! ## `src/services/orchestration_service.py` -/

/-- The `SmartTransferRule` columns read by the suggestion planner.  The
query pre-filters this user's active rules and orders them by descending
priority; `active_rules` below is that query's result list. -/
structure SmartTransferRule where
  id : ℕ
  name : String
  rule_type : String
  target_amount_monthly : ℚ
  destination_account_name : String
deriving DecidableEq

/-- `RuleType.TAX_SAVING.value` (src/db/smart_transfer_rule.py). -/
def RULE_TYPE_TAX_SAVING : String := "Tax Saving"

/-- One line item appended to `suggestion_plan`. -/
structure SuggestionItem where
  rule_id : ℕ
  rule_name : String
  transfer_amount : ℚ
  destination : String
  rule_type : String
deriving DecidableEq

/-- The payload returned by `generate_consent_suggestion_plan`.  The
standby (below-threshold) branch returns a dict without the
`remaining_unallocated` key, modelled as `none`.  (The human-readable
`message` strings, pure display, are omitted.) -/
structure SuggestionPlanResult where
  available_fund : ℚ
  remaining_unallocated : Option ℚ
  total_suggested : ℚ
  suggestion_plan : List SuggestionItem
deriving DecidableEq

/-- The tax-saving priority loop of `generate_consent_suggestion_plan`:
breaks when the remaining fund is exhausted; each rule is capped at
`min(target, remaining_fund, remaining_tax_headroom)`; returns the items
plus (remaining_fund, remaining_tax_headroom, total_suggested). -/
def allocateTaxRules : List SmartTransferRule → ℚ → ℚ → ℚ →
    List SuggestionItem × ℚ × ℚ × ℚ
  | [], remaining_fund, remaining_headroom, total_suggested =>
      ([], remaining_fund, remaining_headroom, total_suggested)
  | rule :: rest, remaining_fund, remaining_headroom, total_suggested =>
      if remaining_fund ≤ 0 then
        ([], remaining_fund, remaining_headroom, total_suggested)
      else
        let transfer_target :=
          min rule.target_amount_monthly (min remaining_fund remaining_headroom)
        if transfer_target > 0 then
          let rest_result := allocateTaxRules rest
            (remaining_fund - transfer_target)
            (remaining_headroom - transfer_target)
            (total_suggested + transfer_target)
          ({ rule_id := rule.id, rule_name := rule.name,
             transfer_amount := quantize2 transfer_target,
             destination := rule.destination_account_name,
             rule_type := rule.rule_type } :: rest_result.1, rest_result.2)
        else allocateTaxRules rest remaining_fund remaining_headroom total_suggested

/-- The secondary goals/stashes loop of `generate_consent_suggestion_plan`:
as above but capped at `min(target, remaining_fund)` only; returns the
items plus (remaining_fund, total_suggested). -/
def allocateOtherRules : List SmartTransferRule → ℚ → ℚ →
    List SuggestionItem × ℚ × ℚ
  | [], remaining_fund, total_suggested => ([], remaining_fund, total_suggested)
  | rule :: rest, remaining_fund, total_suggested =>
      if remaining_fund ≤ 0 then ([], remaining_fund, total_suggested)
      else
        let transfer_amount := min rule.target_amount_monthly remaining_fund
        if transfer_amount > 0 then
          let rest_result := allocateOtherRules rest
            (remaining_fund - transfer_amount) (total_suggested + transfer_amount)
          ({ rule_id := rule.id, rule_name := rule.name,
             transfer_amount := quantize2 transfer_amount,
             destination := rule.destination_account_name,
             rule_type := rule.rule_type } :: rest_result.1, rest_result.2)
        else allocateOtherRules rest remaining_fund total_suggested

/-- `generate_consent_suggestion_plan` (src/services/orchestration_service.py).
`user_tax_headroom` is `user.tax_headroom_remaining or 0` read from the
user row.  Available fund at or below the 500 threshold returns the
standby payload (no `remaining_unallocated` key); otherwise tax-saving
rules are funded first, then other rules. -/
def generate_consent_suggestion_plan (salary_profile : SalaryAllocationProfile)
    (user_tax_headroom : ℚ) (active_rules : List SmartTransferRule) :
    SuggestionPlanResult :=
  let available_fund := salary_profile.projected_reclaimable_salary -
    salary_profile.total_autotransferred
  if available_fund ≤ 500 then
    { available_fund := quantize2 available_fund,
      remaining_unallocated := none,
      total_suggested := 0,
      suggestion_plan := [] }
  else
    let tax_rules := active_rules.filter
      (fun r => r.rule_type = RULE_TYPE_TAX_SAVING)
    let other_rules := active_rules.filter
      (fun r => ¬ r.rule_type = RULE_TYPE_TAX_SAVING)
    let tax_result := allocateTaxRules tax_rules available_fund
      user_tax_headroom 0
    let other_result := allocateOtherRules other_rules tax_result.2.1
      tax_result.2.2.2
    { available_fund := quantize2 available_fund,
      remaining_unallocated := some (quantize2 other_result.2.1),
      total_suggested := quantize2 other_result.2.2,
      suggestion_plan := tax_result.1 ++ other_result.1 }

/-- One line item of a consented transfer plan (numeric amounts; the
float/str `Decimal` coercion of the API boundary is outside the model). -/
structure TransferItem where
  rule_id : ℕ
  rule_name : String
  transfer_amount : ℚ
  rule_type : String
deriving DecidableEq

/-- The execution loop of `record_consent_and_update_balance`: line items
with non-positive amounts are skipped (`continue`); every positive item
is recorded and added to `total_transferred`. -/
def committedTotal (transfer_plan : List TransferItem) : ℚ :=
  transfer_plan.foldl (fun acc item =>
    if item.transfer_amount ≤ 0 then acc else acc + item.transfer_amount) 0

/-- `record_consent_and_update_balance` (src/services/orchestration_service.py),
given the period's salary profile (the not-found raise is the profile's
absence, outside this state transformer).  An empty plan changes nothing.
Otherwise every positive line item is executed — the consented total is
never compared against the available fund — and the profile is updated by
decreasing `projected_reclaimable_salary` and increasing
`total_autotransferred` by the committed total.  Returns the updated
profile and `total_transferred`. -/
def record_consent_and_update_balance (salary_profile : SalaryAllocationProfile)
    (transfer_plan : List TransferItem) : SalaryAllocationProfile × ℚ :=
  if transfer_plan = [] then (salary_profile, 0)
  else
    let total_transferred := committedTotal transfer_plan
    ({ salary_profile with
        projected_reclaimable_salary :=
          salary_profile.projected_reclaimable_salary - total_transferred,
        total_autotransferred :=
          salary_profile.total_autotransferred + total_transferred },
     total_transferred)

/-! ## Helper lemmas -/

theorem quantize2_mono {a b : ℚ} (h : a ≤ b) : quantize2 a ≤ quantize2 b := by
  unfold quantize2
  have hf : ⌊a * 100 + 1 / 2⌋ ≤ ⌊b * 100 + 1 / 2⌋ := by
    apply Int.floor_mono
    have : a * 100 ≤ b * 100 := by nlinarith
    linarith
  have : ((⌊a * 100 + 1 / 2⌋ : ℤ) : ℚ) ≤ ((⌊b * 100 + 1 / 2⌋ : ℤ) : ℚ) := by
    exact_mod_cast hf
  linarith [div_le_div_of_nonneg_right (c := (100:ℚ)) this (by norm_num)]

theorem quantize2_eq_self {q : ℚ} (h : TwoDP q) : quantize2 q = q := by
  obtain ⟨z, rfl⟩ := h
  unfold quantize2
  have h100 : (z : ℚ) / 100 * 100 = (z : ℚ) := by field_simp
  rw [h100, add_comm, Int.floor_add_int]
  norm_num

theorem quantize2_zero : quantize2 0 = 0 :=
  quantize2_eq_self ⟨0, by norm_num⟩

theorem quantize2_nonneg {q : ℚ} (h : 0 ≤ q) : 0 ≤ quantize2 q := by
  have := quantize2_mono h
  rwa [quantize2_zero] at this

theorem TwoDP.zero : TwoDP 0 := ⟨0, by norm_num⟩

theorem TwoDP.add {a b : ℚ} (ha : TwoDP a) (hb : TwoDP b) : TwoDP (a + b) := by
  obtain ⟨x, rfl⟩ := ha; obtain ⟨y, rfl⟩ := hb
  exact ⟨x + y, by push_cast; ring⟩

theorem TwoDP.sub {a b : ℚ} (ha : TwoDP a) (hb : TwoDP b) : TwoDP (a - b) := by
  obtain ⟨x, rfl⟩ := ha; obtain ⟨y, rfl⟩ := hb
  exact ⟨x - y, by push_cast; ring⟩

theorem TwoDP.min {a b : ℚ} (ha : TwoDP a) (hb : TwoDP b) : TwoDP (min a b) := by
  rcases le_total a b with h | h
  · rwa [min_eq_left h]
  · rwa [min_eq_right h]

theorem TwoDP.max {a b : ℚ} (ha : TwoDP a) (hb : TwoDP b) : TwoDP (max a b) := by
  rcases le_total a b with h | h
  · rwa [max_eq_right h]
  · rwa [max_eq_left h]

theorem TwoDP.quantize2 (q : ℚ) : TwoDP (quantize2 q) :=
  ⟨⌊q * 100 + 1 / 2⌋, rfl⟩

theorem getD_nonneg (l : List ℚ) (n : ℕ) (h : ∀ x ∈ l, 0 ≤ x) :
    0 ≤ l.getD n 0 := by
  rw [List.getD_eq_getElem?_getD]
  cases hg : l[n]? with
  | none => simp
  | some a =>
    simp only [Option.getD_some]
    obtain ⟨hlt, rfl⟩ := List.getElem?_eq_some.mp hg
    exact h _ (List.getElem_mem hlt)

theorem median2_nonneg (l : List ℚ) (h : ∀ x ∈ l, 0 ≤ x) : 0 ≤ median2 l := by
  unfold median2
  have hs : ∀ x ∈ l.mergeSort (· ≤ ·), 0 ≤ x :=
    fun x hx => h x (List.mem_mergeSort.mp hx)
  dsimp only
  split
  · exact getD_nonneg _ _ hs
  · have h1 := getD_nonneg (l.mergeSort (· ≤ ·))
      ((l.mergeSort (· ≤ ·)).length / 2 - 1) hs
    have h2 := getD_nonneg (l.mergeSort (· ≤ ·))
      ((l.mergeSort (· ≤ ·)).length / 2) hs
    positivity

theorem monthlyTotals_nonneg (txs : List Tx) (c : String)
    (h : ∀ t ∈ txs, 0 ≤ t.amount) : ∀ x ∈ monthlyTotals txs c, 0 ≤ x := by
  intro x hx
  unfold monthlyTotals at hx
  obtain ⟨m, _, rfl⟩ := List.mem_map.mp hx
  apply List.sum_nonneg
  intro y hy
  obtain ⟨t, ht, rfl⟩ := List.mem_map.mp hy
  exact h t (List.mem_of_mem_filter ht)

theorem historicalMedian_nonneg (txs : List Tx) (c : String)
    (h : ∀ t ∈ txs, 0 ≤ t.amount) : 0 ≤ historicalMedian txs c := by
  unfold historicalMedian
  split
  · exact le_refl 0
  · exact quantize2_nonneg (median2_nonneg _ (monthlyTotals_nonneg txs c h))

theorem historicalMedian_twoDP (txs : List Tx) (c : String) :
    TwoDP (historicalMedian txs c) := by
  unfold historicalMedian
  split
  · exact TwoDP.zero
  · exact TwoDP.quantize2 _

theorem foldl_nonneg {α : Type} (f : ℚ → α → ℚ)
    (hf : ∀ acc a, 0 ≤ acc → 0 ≤ f acc a) :
    ∀ (l : List α) (acc : ℚ), 0 ≤ acc → 0 ≤ l.foldl f acc := by
  intro l
  induction l with
  | nil => intro acc h; simpa using h
  | cons a t ih => intro acc h; exact ih _ (hf acc a h)

theorem variable_leakage_nonneg (final_dmb : List (String × ℚ))
    (spends : String → ℚ) : 0 ≤ variable_leakage final_dmb spends := by
  unfold variable_leakage
  refine add_nonneg (foldl_nonneg _ ?_ _ _ le_rfl)
    (foldl_nonneg _ ?_ _ _ le_rfl)
  · intro acc e hacc
    dsimp only
    split_ifs with hagg hsl
    · exact hacc
    · have := le_max_left 0 (spends e.1 - e.2)
      linarith
    · exact hacc
  · intro acc c hacc
    dsimp only
    split_ifs with hc
    · linarith
    · exact hacc

theorem tax_headroom_leak_nonneg (y f : ℚ) (m : ℕ) :
    0 ≤ tax_headroom_leak y f m := by
  unfold tax_headroom_leak
  dsimp only
  exact le_max_left 0 _

theorem allocateTaxRules_conservation :
    ∀ (rules : List SmartTransferRule) (rf rh ts : ℚ),
      (allocateTaxRules rules rf rh ts).2.1 +
        (allocateTaxRules rules rf rh ts).2.2.2 = rf + ts := by
  intro rules
  induction rules with
  | nil => intro rf rh ts; simp [allocateTaxRules]
  | cons rule rest ih =>
    intro rf rh ts
    unfold allocateTaxRules
    dsimp only
    split_ifs with h1 h2
    · simp
    · dsimp only
      have h := ih (rf - min rule.target_amount_monthly (min rf rh))
        (rh - min rule.target_amount_monthly (min rf rh))
        (ts + min rule.target_amount_monthly (min rf rh))
      linarith
    · exact ih rf rh ts

theorem allocateOtherRules_conservation :
    ∀ (rules : List SmartTransferRule) (rf ts : ℚ),
      (allocateOtherRules rules rf ts).2.1 +
        (allocateOtherRules rules rf ts).2.2 = rf + ts := by
  intro rules
  induction rules with
  | nil => intro rf ts; simp [allocateOtherRules]
  | cons rule rest ih =>
    intro rf ts
    unfold allocateOtherRules
    dsimp only
    split_ifs with h1 h2
    · simp
    · dsimp only
      have h := ih (rf - min rule.target_amount_monthly rf)
        (ts + min rule.target_amount_monthly rf)
      linarith
    · exact ih rf ts

theorem allocateTaxRules_twoDP :
    ∀ (rules : List SmartTransferRule) (rf rh ts : ℚ),
      (∀ r ∈ rules, TwoDP r.target_amount_monthly) →
      TwoDP rf → TwoDP rh → TwoDP ts →
      TwoDP (allocateTaxRules rules rf rh ts).2.1 ∧
        TwoDP (allocateTaxRules rules rf rh ts).2.2.2 := by
  intro rules
  induction rules with
  | nil => intro rf rh ts _ hf _ ht; simpa [allocateTaxRules] using ⟨hf, ht⟩
  | cons rule rest ih =>
    intro rf rh ts hr hf hh ht
    have htgt : TwoDP (min rule.target_amount_monthly (min rf rh)) :=
      TwoDP.min (hr rule (by simp)) (TwoDP.min hf hh)
    unfold allocateTaxRules
    dsimp only
    split_ifs with h1 h2
    · exact ⟨hf, ht⟩
    · dsimp only
      exact ih (rf - min rule.target_amount_monthly (min rf rh))
        (rh - min rule.target_amount_monthly (min rf rh))
        (ts + min rule.target_amount_monthly (min rf rh))
        (fun r hrr => hr r (by simp [hrr])) (hf.sub htgt) (hh.sub htgt)
        (ht.add htgt)
    · exact ih rf rh ts (fun r hrr => hr r (by simp [hrr])) hf hh ht

theorem allocateOtherRules_twoDP :
    ∀ (rules : List SmartTransferRule) (rf ts : ℚ),
      (∀ r ∈ rules, TwoDP r.target_amount_monthly) →
      TwoDP rf → TwoDP ts →
      TwoDP (allocateOtherRules rules rf ts).2.1 ∧
        TwoDP (allocateOtherRules rules rf ts).2.2 := by
  intro rules
  induction rules with
  | nil => intro rf ts _ hf ht; simpa [allocateOtherRules] using ⟨hf, ht⟩
  | cons rule rest ih =>
    intro rf ts hr hf ht
    have htgt : TwoDP (min rule.target_amount_monthly rf) :=
      TwoDP.min (hr rule (by simp)) hf
    unfold allocateOtherRules
    dsimp only
    split_ifs with h1 h2
    · exact ⟨hf, ht⟩
    · dsimp only
      exact ih (rf - min rule.target_amount_monthly rf)
        (ts + min rule.target_amount_monthly rf)
        (fun r hrr => hr r (by simp [hrr])) (hf.sub htgt) (ht.add htgt)
    · exact ih rf ts (fun r hrr => hr r (by simp [hrr])) hf ht

end FinTraq

/-- C3: whenever the similarity query yields fewer than 5 cohort members,
`calculate_benchmark_factor` returns exactly the documented fallback
constant 0.85, regardless of the cohort members' values. -/
theorem C3_benchmark_fallback (cohort : List FinTraq.CohortProfile)
    (h : cohort.length < 5) :
    FinTraq.calculate_benchmark_factor cohort = 85 / 100 := by
  unfold FinTraq.calculate_benchmark_factor
  rw [if_pos (show cohort.length < FinTraq.MIN_COHORT_SIZE from h)]
  rfl

/-- C3 witness: a concrete 3-member cohort (with wild values) yields 0.85. -/
theorem C3_benchmark_fallback_witness :
    ([⟨10, 3, some 999⟩, ⟨50000, 0, none⟩, ⟨7, 7, some 0⟩] :
        List FinTraq.CohortProfile).length < 5 ∧
    FinTraq.calculate_benchmark_factor
      [⟨10, 3, some 999⟩, ⟨50000, 0, none⟩, ⟨7, 7, some 0⟩] = 85 / 100 :=
  ⟨by decide, C3_benchmark_fallback _ (by decide)⟩

/-- C5 counterexample: at a concrete input (EFS 1, Tier 3, income slab
"High", benchmark efficiency factor 0.85 supplied), the code's
`Total_Minimal_Need_DMB` is 8500 — the sum of `base × EFS × city_multiplier
× efficiency_factor` — whereas summing the claimed five-factor formula
(with the source's income-band table supplying the income multiplier 0.90)
gives 7650.  The income-band multiplier is not applied as a fifth factor. -/
theorem C5_counterexample :
    (FinTraq.calculate_dynamic_baseline 50000 1 "Tier 3" "High"
        (some (85 / 100))).lookup "Total_Minimal_Need_DMB" = some 8500 ∧
    (FinTraq.BASE_NEEDS_INDEX.map (fun p =>
        FinTraq.category_dmb_spec_five_factor p.2 1
          (FinTraq.CITY_COST_MULTIPLIERS "Tier 3")
          (FinTraq.DEFAULT_EFFICIENCY_FACTORS "High") (85 / 100))).sum = 7650 ∧
    (8500 : ℚ) ≠ 7650 := by
  refine ⟨?_, ?_, by norm_num⟩
  · simp [FinTraq.calculate_dynamic_baseline, FinTraq.baselineStep,
      FinTraq.BASE_NEEDS_INDEX, FinTraq.CITY_COST_MULTIPLIERS,
      FinTraq.LEAK_SAVINGS_MARGIN_PERCENTAGE, FinTraq.quantize2, List.lookup]
    norm_num
  · simp [FinTraq.BASE_NEEDS_INDEX, FinTraq.category_dmb_spec_five_factor,
      FinTraq.CITY_COST_MULTIPLIERS, FinTraq.DEFAULT_EFFICIENCY_FACTORS]
    norm_num

/-- C5 amended: for every input, each category entry of
`calculate_dynamic_baseline` is the four-factor product
`base_need × EFS × city_multiplier × efficiency_factor` (times the 0.85
leak-margin and quantized), and `Total_Minimal_Need_DMB` is the quantized
sum of the four-factor category DMBs — where the efficiency factor is the
supplied benchmark factor, the income-band table entering only as its
fallback when no benchmark factor is given.  No fifth income-band
multiplier is applied. -/
theorem C5_amended (net_income efs : ℚ) (ct is : String) (bef : Option ℚ) :
    (FinTraq.calculate_dynamic_baseline net_income efs ct is bef).take 4 =
      FinTraq.BASE_NEEDS_INDEX.map (fun p =>
        (p.1, FinTraq.quantize2
           (FinTraq.quantize2 (p.2 * efs * FinTraq.CITY_COST_MULTIPLIERS ct *
              (bef.getD (FinTraq.DEFAULT_EFFICIENCY_FACTORS is))) *
            (1 - FinTraq.LEAK_SAVINGS_MARGIN_PERCENTAGE)))) ∧
    (FinTraq.calculate_dynamic_baseline net_income efs ct is bef).lookup
        "Total_Minimal_Need_DMB" =
      some (FinTraq.quantize2
        ((FinTraq.BASE_NEEDS_INDEX.map (fun p =>
            FinTraq.quantize2 (p.2 * efs * FinTraq.CITY_COST_MULTIPLIERS ct *
              (bef.getD (FinTraq.DEFAULT_EFFICIENCY_FACTORS is))))).sum)) := by
  cases bef with
  | none =>
    constructor
    · simp [FinTraq.calculate_dynamic_baseline, FinTraq.baselineStep,
        FinTraq.BASE_NEEDS_INDEX]
    · simp [FinTraq.calculate_dynamic_baseline, FinTraq.baselineStep,
        FinTraq.BASE_NEEDS_INDEX, List.lookup]
      congr 1
      ring
  | some f =>
    constructor
    · simp [FinTraq.calculate_dynamic_baseline, FinTraq.baselineStep,
        FinTraq.BASE_NEEDS_INDEX]
    · simp [FinTraq.calculate_dynamic_baseline, FinTraq.baselineStep,
        FinTraq.BASE_NEEDS_INDEX, List.lookup]
      congr 1
      ring

/-- C8: for every household with at least one adult, increasing any one
dependent band's count by one never decreases the EFS returned by
`calculate_equivalent_family_size`. -/
theorem C8_efs_monotone (p : FinTraq.ProfileData) (h : 1 ≤ p.num_adults) :
    FinTraq.calculate_equivalent_family_size p ≤
      FinTraq.calculate_equivalent_family_size
        {p with num_dependents_under_6 := p.num_dependents_under_6 + 1} ∧
    FinTraq.calculate_equivalent_family_size p ≤
      FinTraq.calculate_equivalent_family_size
        {p with num_dependents_6_to_17 := p.num_dependents_6_to_17 + 1} ∧
    FinTraq.calculate_equivalent_family_size p ≤
      FinTraq.calculate_equivalent_family_size
        {p with num_dependents_over_18 := p.num_dependents_over_18 + 1} := by
  refine ⟨?_, ?_, ?_⟩ <;>
  · apply FinTraq.quantize2_mono
    simp only []
    push_cast
    split <;> nlinarith

/-- C8 witness: a 2-adult household with one 6–17 dependent; adding one
dependent in each band does not decrease the EFS. -/
theorem C8_efs_monotone_witness :
    1 ≤ (⟨2, 0, 1, 0⟩ : FinTraq.ProfileData).num_adults ∧
    (FinTraq.calculate_equivalent_family_size ⟨2, 0, 1, 0⟩ ≤
       FinTraq.calculate_equivalent_family_size ⟨2, 1, 1, 0⟩ ∧
     FinTraq.calculate_equivalent_family_size ⟨2, 0, 1, 0⟩ ≤
       FinTraq.calculate_equivalent_family_size ⟨2, 0, 2, 0⟩ ∧
     FinTraq.calculate_equivalent_family_size ⟨2, 0, 1, 0⟩ ≤
       FinTraq.calculate_equivalent_family_size ⟨2, 0, 1, 1⟩) :=
  ⟨by decide, C8_efs_monotone ⟨2, 0, 1, 0⟩ (by decide)⟩

/-- C4: every (non-aggregate) category entry of the reconciled baseline
produced by `calculate_final_dmb_with_history` equals
`max(category_threshold_from_ML, historical_median)`, which is thus at
least the historical median and non-negative — given two-decimal ML
thresholds and non-negative transaction amounts. -/
theorem C4_baseline_floor (txs : List FinTraq.Tx)
    (dynamic_baselines : List (String × ℚ)) (c : String) (thr : ℚ)
    (hmem : (c, thr) ∈ dynamic_baselines) (hc : c ∉ FinTraq.AGGREGATE_KEYS)
    (hthr : FinTraq.TwoDP thr) (hamt : ∀ t ∈ txs, 0 ≤ t.amount) :
    (c, max thr (FinTraq.historicalMedian txs c)) ∈
      FinTraq.calculate_final_dmb_with_history txs dynamic_baselines ∧
    FinTraq.historicalMedian txs c ≤ max thr (FinTraq.historicalMedian txs c) ∧
    0 ≤ max thr (FinTraq.historicalMedian txs c) := by
  have hmed0 := FinTraq.historicalMedian_nonneg txs c hamt
  refine ⟨?_, le_max_right _ _, le_trans hmed0 (le_max_right _ _)⟩
  unfold FinTraq.calculate_final_dmb_with_history
  apply List.mem_map.mpr
  refine ⟨(c, thr), hmem, ?_⟩
  simp only
  rw [if_neg hc,
    FinTraq.quantize2_eq_self
      (FinTraq.TwoDP.max hthr (FinTraq.historicalMedian_twoDP txs c))]

/-- C4 witness: one category with ML threshold 3612.50 and a single
historical transaction of 100. -/
theorem C4_baseline_floor_witness :
    (("Variable_Essential_Food", (7225 / 2 : ℚ)) ∈
        [("Variable_Essential_Food", (7225 / 2 : ℚ))] ∧
      "Variable_Essential_Food" ∉ FinTraq.AGGREGATE_KEYS) ∧
    (("Variable_Essential_Food",
        max (7225 / 2 : ℚ)
          (FinTraq.historicalMedian [⟨"Variable_Essential_Food", 0, 100⟩]
            "Variable_Essential_Food")) ∈
      FinTraq.calculate_final_dmb_with_history
        [⟨"Variable_Essential_Food", 0, 100⟩]
        [("Variable_Essential_Food", 7225 / 2)] ∧
    FinTraq.historicalMedian [⟨"Variable_Essential_Food", 0, 100⟩]
        "Variable_Essential_Food" ≤
      max (7225 / 2 : ℚ)
        (FinTraq.historicalMedian [⟨"Variable_Essential_Food", 0, 100⟩]
          "Variable_Essential_Food") ∧
    0 ≤ max (7225 / 2 : ℚ)
        (FinTraq.historicalMedian [⟨"Variable_Essential_Food", 0, 100⟩]
          "Variable_Essential_Food")) :=
  ⟨⟨by simp, by decide⟩,
   C4_baseline_floor [⟨"Variable_Essential_Food", 0, 100⟩]
     [("Variable_Essential_Food", 7225 / 2)] "Variable_Essential_Food"
     (7225 / 2) (by simp) (by decide) ⟨361250, by norm_num⟩
     (by intro t ht; simp at ht; rw [ht]; norm_num)⟩

/-- C6: every category bucket produced by the two category loops of
`calculate_leakage` has `leak_amount = max(0, spend − baseline)` (hence
non-negative), and every Pure-Discretionary bucket's leak equals its
spend exactly — given two-decimal reconciled baselines and spends. -/
theorem C6_leak_nonneg (final_dmb : List (String × ℚ)) (spends : String → ℚ)
    (hthr : ∀ e ∈ final_dmb, FinTraq.TwoDP e.2)
    (hsp : ∀ c, FinTraq.TwoDP (spends c)) :
    (∀ b ∈ FinTraq.leakage_buckets final_dmb spends,
        b.leak_amount = max 0 (b.spend - b.baseline_threshold) ∧
        0 ≤ b.leak_amount) ∧
    (∀ b ∈ FinTraq.PD_CATEGORIES.filterMap (FinTraq.pdBucket spends),
        b.leak_amount = b.spend) := by
  have pd_fields : ∀ c b, FinTraq.pdBucket spends c = some b →
      b.leak_amount = b.spend ∧ b.baseline_threshold = 0 ∧ 0 ≤ b.spend := by
    intro c b hfc
    unfold FinTraq.pdBucket at hfc
    dsimp only at hfc
    by_cases hpos : spends c > 0
    · rw [if_pos hpos, Option.some.injEq] at hfc
      subst hfc
      exact ⟨rfl, FinTraq.quantize2_zero,
        FinTraq.quantize2_nonneg (le_of_lt hpos)⟩
    · rw [if_neg hpos] at hfc
      exact absurd hfc (by simp)
  constructor
  · intro b hb
    unfold FinTraq.leakage_buckets at hb
    rw [List.mem_append] at hb
    rcases hb with hb | hb
    · obtain ⟨e, he, hfe⟩ := List.mem_filterMap.mp hb
      unfold FinTraq.scaledBucket at hfe
      by_cases hagg : e.1 ∈ FinTraq.AGGREGATE_KEYS
      · rw [if_pos hagg] at hfe
        exact absurd hfe (by simp)
      · rw [if_neg hagg] at hfe
        dsimp only at hfe
        by_cases hpos : spends e.1 > 0
        · rw [if_pos hpos, Option.some.injEq] at hfe
          subst hfe
          simp only
          rw [FinTraq.quantize2_eq_self (hsp e.1),
            FinTraq.quantize2_eq_self (hthr e he),
            FinTraq.quantize2_eq_self
              (FinTraq.TwoDP.max FinTraq.TwoDP.zero
                ((hsp e.1).sub (hthr e he)))]
          exact ⟨rfl, le_max_left 0 _⟩
        · rw [if_neg hpos] at hfe
          exact absurd hfe (by simp)
    · obtain ⟨c, _, hfc⟩ := List.mem_filterMap.mp hb
      obtain ⟨hleak, hbase, hspend⟩ := pd_fields c b hfc
      refine ⟨?_, ?_⟩
      · rw [hleak, hbase, sub_zero, max_eq_right hspend]
      · rw [hleak]; exact hspend
  · intro b hb
    obtain ⟨c, _, hfc⟩ := List.mem_filterMap.mp hb
    exact (pd_fields c b hfc).1

/-- C6 witness: one scaled category (baseline 100) and a uniform spend of
150 on every category. -/
theorem C6_leak_nonneg_witness :
    ((∀ e ∈ [(("Variable_Essential_Food" : String), (100 : ℚ))],
        FinTraq.TwoDP e.2) ∧
      (∀ c : String, FinTraq.TwoDP ((fun _ => (150 : ℚ)) c))) ∧
    ((∀ b ∈ FinTraq.leakage_buckets [("Variable_Essential_Food", (100 : ℚ))]
          (fun _ => (150 : ℚ)),
        b.leak_amount = max 0 (b.spend - b.baseline_threshold) ∧
        0 ≤ b.leak_amount) ∧
      (∀ b ∈ FinTraq.PD_CATEGORIES.filterMap
          (FinTraq.pdBucket (fun _ => (150 : ℚ))),
        b.leak_amount = b.spend)) :=
  ⟨⟨by intro e he; simp at he; rw [he]; exact ⟨10000, by norm_num⟩,
    fun _ => ⟨15000, by norm_num⟩⟩,
   C6_leak_nonneg [("Variable_Essential_Food", 100)] (fun _ => 150)
     (by intro e he; simp at he; rw [he]; exact ⟨10000, by norm_num⟩)
     (fun _ => ⟨15000, by norm_num⟩)⟩

/-- C2 counterexample: with net income 10000, no fixed commitments, no
tax headroom and a 500 Pure-Discretionary spend, `calculate_leakage`
persists `projected_reclaimable_salary = 0` — not the claimed
`min(total_leakage, net − fixed − floor) = −5000` — and the claimed
invariant `projected ≤ net − fixed − GLOBAL_MINIMUM_FLOOR` fails. -/
theorem C2_guardrail_counterexample :
    FinTraq.calculate_leakage 1 (some ⟨10000, "Tier 3", "Medium"⟩)
        (some ⟨some 1⟩) ⟨10000, 0, 0, 0, 0, 0⟩ (85 / 100) []
        [("Pure_Discretionary_DiningOut", 500)] 150000 6 =
      .ok ⟨500, 0, 0,
        [⟨"Pure_Discretionary_DiningOut", 0, 500,
          "100% Discretionary Spend (Goal Opportunity)", 500⟩],
        ⟨10000, 0, 500, 0, 0, 0⟩⟩ ∧
    ¬ ((0 : ℚ) ≤ 10000 - 0 - FinTraq.GLOBAL_MINIMAL_BASELINE_FLOOR) ∧
    (0 : ℚ) ≠ min 500 (10000 - 0 - FinTraq.GLOBAL_MINIMAL_BASELINE_FLOOR) := by
  refine ⟨?_, ?_, ?_⟩
  · simp only [FinTraq.calculate_leakage, FinTraq.fetch_profile_data_and_baselines,
      FinTraq.calculate_dynamic_baseline, FinTraq.baselineStep, FinTraq.BASE_NEEDS_INDEX,
      FinTraq.CITY_COST_MULTIPLIERS, FinTraq.DEFAULT_EFFICIENCY_FACTORS,
      FinTraq.LEAK_SAVINGS_MARGIN_PERCENTAGE, FinTraq.calculate_final_dmb_with_history,
      FinTraq.historicalMedian, FinTraq.monthlyTotals, FinTraq.median2,
      FinTraq.AGGREGATE_KEYS, FinTraq.tax_headroom_leak,
      FinTraq.ANNUAL_MAX_TAX_SAVING_LIMIT, FinTraq.variable_leakage,
      FinTraq.leakage_buckets, FinTraq.scaledBucket, FinTraq.pdBucket,
      FinTraq.PD_CATEGORIES, FinTraq.taxHeadroomBucket,
      FinTraq.projectedReclaimable, FinTraq.GLOBAL_MINIMAL_BASELINE_FLOOR,
      List.lookup, List.foldl, List.filterMap, List.map, List.filter]
    simp
    norm_num [FinTraq.quantize2]
    simp [FinTraq.scaledBucket, FinTraq.pdBucket, FinTraq.AGGREGATE_KEYS]
  · norm_num [FinTraq.GLOBAL_MINIMAL_BASELINE_FLOOR]
  · norm_num [FinTraq.GLOBAL_MINIMAL_BASELINE_FLOOR]

/-- C2 amended: the clamp actually computed is
`projected = min(total_leakage, max(0, net − fixed − floor))` — the
available-pool term itself is first clamped at zero — so every persisted
value satisfies `0 ≤ projected ≤ max(0, net − fixed − floor)` (and
`projected ≤ net − fixed − floor` only when that bound is non-negative). -/
theorem C2_guardrail_amended (user_id : ℕ) (user : Option FinTraq.UserRec)
    (fp : Option FinTraq.FinProfileRec) (sp : FinTraq.SalaryAllocationProfile)
    (bf : ℚ) (history : List FinTraq.Tx) (spends : List (String × ℚ))
    (ytd : ℚ) (months : ℕ) (r : FinTraq.LeakageResult)
    (h : FinTraq.calculate_leakage user_id user fp sp bf history spends ytd
        months = .ok r) :
    0 ≤ r.salary_profile_after.projected_reclaimable_salary ∧
    r.salary_profile_after.projected_reclaimable_salary ≤
      max 0 (sp.net_monthly_income - sp.fixed_commitment_total -
        FinTraq.GLOBAL_MINIMAL_BASELINE_FLOOR) ∧
    (∀ total net fixed : ℚ, FinTraq.projectedReclaimable total net fixed =
      min total (max 0 (net - fixed - FinTraq.GLOBAL_MINIMAL_BASELINE_FLOOR))) := by
  have hform : ∀ total net fixed : ℚ,
      FinTraq.projectedReclaimable total net fixed =
        min total (max 0 (net - fixed - FinTraq.GLOBAL_MINIMAL_BASELINE_FLOOR)) := by
    intro t n f
    unfold FinTraq.projectedReclaimable
    dsimp only
    congr 2
    ring
  cases hfe : FinTraq.fetch_profile_data_and_baselines user_id user fp sp bf with
  | error e =>
    unfold FinTraq.calculate_leakage at h
    rw [hfe] at h
    exact absurd h (by simp)
  | ok fetched =>
    unfold FinTraq.calculate_leakage at h
    rw [hfe] at h
    simp only [Except.ok.injEq] at h
    subst h
    dsimp only
    refine ⟨?_, ?_, hform⟩
    · rw [hform]
      refine le_min ?_ (le_max_left _ _)
      exact add_nonneg (FinTraq.variable_leakage_nonneg _ _)
        (FinTraq.tax_headroom_leak_nonneg _ _ _)
    · rw [hform]
      exact min_le_right _ _

/-- C2 witness: the amended guarantees at the counterexample's concrete
input, whose persisted projected reclaimable salary is 0. -/
theorem C2_guardrail_amended_witness :
    0 ≤ (⟨500, 0, 0,
        [⟨"Pure_Discretionary_DiningOut", 0, 500,
          "100% Discretionary Spend (Goal Opportunity)", 500⟩],
        ⟨10000, 0, 500, 0, 0, 0⟩⟩ :
          FinTraq.LeakageResult).salary_profile_after.projected_reclaimable_salary ∧
    (⟨500, 0, 0,
        [⟨"Pure_Discretionary_DiningOut", 0, 500,
          "100% Discretionary Spend (Goal Opportunity)", 500⟩],
        ⟨10000, 0, 500, 0, 0, 0⟩⟩ :
          FinTraq.LeakageResult).salary_profile_after.projected_reclaimable_salary ≤
      max 0 ((10000 : ℚ) - 0 - FinTraq.GLOBAL_MINIMAL_BASELINE_FLOOR) ∧
    (∀ total net fixed : ℚ, FinTraq.projectedReclaimable total net fixed =
      min total (max 0 (net - fixed - FinTraq.GLOBAL_MINIMAL_BASELINE_FLOOR))) :=
  C2_guardrail_amended 1 (some ⟨10000, "Tier 3", "Medium"⟩) (some ⟨some 1⟩)
    ⟨10000, 0, 0, 0, 0, 0⟩ (85 / 100) [] [("Pure_Discretionary_DiningOut", 500)]
    150000 6 _ (by
      simp only [FinTraq.calculate_leakage, FinTraq.fetch_profile_data_and_baselines,
        FinTraq.calculate_dynamic_baseline, FinTraq.baselineStep, FinTraq.BASE_NEEDS_INDEX,
        FinTraq.CITY_COST_MULTIPLIERS, FinTraq.DEFAULT_EFFICIENCY_FACTORS,
        FinTraq.LEAK_SAVINGS_MARGIN_PERCENTAGE, FinTraq.calculate_final_dmb_with_history,
        FinTraq.historicalMedian, FinTraq.monthlyTotals, FinTraq.median2,
        FinTraq.AGGREGATE_KEYS, FinTraq.tax_headroom_leak,
        FinTraq.ANNUAL_MAX_TAX_SAVING_LIMIT, FinTraq.variable_leakage,
        FinTraq.leakage_buckets, FinTraq.scaledBucket, FinTraq.pdBucket,
        FinTraq.PD_CATEGORIES, FinTraq.taxHeadroomBucket,
        FinTraq.projectedReclaimable, FinTraq.GLOBAL_MINIMAL_BASELINE_FLOOR,
        List.lookup, List.foldl, List.filterMap, List.map, List.filter]
      simp
      norm_num [FinTraq.quantize2]
      simp [FinTraq.scaledBucket, FinTraq.pdBucket, FinTraq.AGGREGATE_KEYS])

/-- C9 counterexample: with the financial profile missing,
`calculate_leakage` does fail — but it surfaces a generic
`Exception("Failed to initialize Leakage Service: ...")`, not the
distinct named `NoResultFound` condition the claim requires. -/
theorem C9_prerequisite_counterexample :
    FinTraq.calculate_leakage 7 (some ⟨50000, "Tier 3", "Medium"⟩) none
        ⟨50000, 0, 0, 0, 0, 0⟩ (85 / 100) [] [] 0 6 =
      .error (.genericError ("Failed to initialize Leakage Service: " ++
        FinTraq.EFS_MISSING_MSG)) ∧
    FinTraq.isNoResultFoundError
      (FinTraq.calculate_leakage 7 (some ⟨50000, "Tier 3", "Medium"⟩) none
        ⟨50000, 0, 0, 0, 0, 0⟩ (85 / 100) [] [] 0 6) = false := by
  exact ⟨rfl, rfl⟩

/-- C9 amended: whenever the financial profile or its EFS is missing (or
the EFS is the falsy 0), the engine never proceeds (it does not assume
EFS = 1.0): `_fetch_profile_data_and_baselines` raises the distinct named
`NoResultFound` prerequisite condition, but `calculate_leakage` catches
it and re-raises a generic `Exception` that only carries the prerequisite
message in its text. -/
theorem C9_prerequisite_amended (user_id : ℕ) (u : FinTraq.UserRec)
    (fp : Option FinTraq.FinProfileRec) (sp : FinTraq.SalaryAllocationProfile)
    (bf : ℚ) (history : List FinTraq.Tx) (spends : List (String × ℚ))
    (ytd : ℚ) (months : ℕ)
    (h : fp = none ∨ fp = some ⟨none⟩ ∨ fp = some ⟨some 0⟩) :
    FinTraq.fetch_profile_data_and_baselines user_id (some u) fp sp bf =
      .error (.noResultFound FinTraq.EFS_MISSING_MSG) ∧
    FinTraq.calculate_leakage user_id (some u) fp sp bf history spends ytd
        months =
      .error (.genericError ("Failed to initialize Leakage Service: " ++
        FinTraq.EFS_MISSING_MSG)) := by
  have h1 : FinTraq.fetch_profile_data_and_baselines user_id (some u) fp sp bf =
      .error (.noResultFound FinTraq.EFS_MISSING_MSG) := by
    rcases h with rfl | rfl | rfl
    · rfl
    · rfl
    · simp [FinTraq.fetch_profile_data_and_baselines]
  refine ⟨h1, ?_⟩
  unfold FinTraq.calculate_leakage
  rw [h1]
  rfl

/-- C9 witness: the missing-profile case. -/
theorem C9_prerequisite_amended_witness :
    ((none : Option FinTraq.FinProfileRec) = none ∨
      (none : Option FinTraq.FinProfileRec) = some ⟨none⟩ ∨
      (none : Option FinTraq.FinProfileRec) = some ⟨some 0⟩) ∧
    (FinTraq.fetch_profile_data_and_baselines 7 (some ⟨50000, "Tier 3", "Medium"⟩)
        none ⟨50000, 0, 0, 0, 0, 0⟩ (85 / 100) =
      .error (.noResultFound FinTraq.EFS_MISSING_MSG) ∧
    FinTraq.calculate_leakage 7 (some ⟨50000, "Tier 3", "Medium"⟩) none
        ⟨50000, 0, 0, 0, 0, 0⟩ (85 / 100) [] [] 0 6 =
      .error (.genericError ("Failed to initialize Leakage Service: " ++
        FinTraq.EFS_MISSING_MSG))) :=
  ⟨Or.inl rfl,
   C9_prerequisite_amended 7 ⟨50000, "Tier 3", "Medium"⟩ none
     ⟨50000, 0, 0, 0, 0, 0⟩ (85 / 100) [] [] 0 6 (Or.inl rfl)⟩

/-- C7 counterexample: in the below-threshold standby case (available
fund 400 ≤ 500) the returned payload carries no `remaining_unallocated`
key at all — the remainder is not reported in the plan. -/
theorem C7_conservation_counterexample :
    (FinTraq.generate_consent_suggestion_plan ⟨0, 0, 0, 400, 0, 0⟩ 0
      []).remaining_unallocated = none ∧
    (FinTraq.generate_consent_suggestion_plan ⟨0, 0, 0, 400, 0, 0⟩ 0
      []).available_fund = 400 := by
  constructor
  · norm_num [FinTraq.generate_consent_suggestion_plan]
  · norm_num [FinTraq.generate_consent_suggestion_plan, FinTraq.quantize2]

/-- C7 amended: on the allocation path (available fund above the 500
standby threshold) the payload always reports the unallocated remainder
and `total_suggested + remaining_unallocated = available_fund` exactly;
in the standby branch the remainder key is omitted (with
`total_suggested = 0` and an empty plan). -/
theorem C7_conservation_amended (sp : FinTraq.SalaryAllocationProfile)
    (th : ℚ) (rules : List FinTraq.SmartTransferRule)
    (h : 500 < sp.projected_reclaimable_salary - sp.total_autotransferred)
    (hp : FinTraq.TwoDP sp.projected_reclaimable_salary)
    (ha : FinTraq.TwoDP sp.total_autotransferred)
    (hth : FinTraq.TwoDP th)
    (hr : ∀ r ∈ rules, FinTraq.TwoDP r.target_amount_monthly) :
    (FinTraq.generate_consent_suggestion_plan sp th
      rules).remaining_unallocated.isSome = true ∧
    (FinTraq.generate_consent_suggestion_plan sp th rules).total_suggested +
      (FinTraq.generate_consent_suggestion_plan sp th
        rules).remaining_unallocated.getD 0 =
      (FinTraq.generate_consent_suggestion_plan sp th rules).available_fund := by
  unfold FinTraq.generate_consent_suggestion_plan
  dsimp only
  rw [if_neg (not_le.mpr h)]
  dsimp only
  refine ⟨rfl, ?_⟩
  have hafDP : FinTraq.TwoDP (sp.projected_reclaimable_salary -
      sp.total_autotransferred) := hp.sub ha
  have hcons1 := FinTraq.allocateTaxRules_conservation
    (rules.filter (fun r => r.rule_type = FinTraq.RULE_TYPE_TAX_SAVING))
    (sp.projected_reclaimable_salary - sp.total_autotransferred) th 0
  obtain ⟨hrfDP1, htsDP1⟩ := FinTraq.allocateTaxRules_twoDP
    (rules.filter (fun r => r.rule_type = FinTraq.RULE_TYPE_TAX_SAVING))
    (sp.projected_reclaimable_salary - sp.total_autotransferred) th 0
    (fun r hrr => hr r (List.mem_of_mem_filter hrr)) hafDP hth
    FinTraq.TwoDP.zero
  have hcons2 := FinTraq.allocateOtherRules_conservation
    (rules.filter (fun r => ¬ r.rule_type = FinTraq.RULE_TYPE_TAX_SAVING))
    (FinTraq.allocateTaxRules
      (rules.filter (fun r => r.rule_type = FinTraq.RULE_TYPE_TAX_SAVING))
      (sp.projected_reclaimable_salary - sp.total_autotransferred) th 0).2.1
    (FinTraq.allocateTaxRules
      (rules.filter (fun r => r.rule_type = FinTraq.RULE_TYPE_TAX_SAVING))
      (sp.projected_reclaimable_salary - sp.total_autotransferred) th 0).2.2.2
  obtain ⟨hrfDP2, htsDP2⟩ := FinTraq.allocateOtherRules_twoDP
    (rules.filter (fun r => ¬ r.rule_type = FinTraq.RULE_TYPE_TAX_SAVING))
    (FinTraq.allocateTaxRules
      (rules.filter (fun r => r.rule_type = FinTraq.RULE_TYPE_TAX_SAVING))
      (sp.projected_reclaimable_salary - sp.total_autotransferred) th 0).2.1
    (FinTraq.allocateTaxRules
      (rules.filter (fun r => r.rule_type = FinTraq.RULE_TYPE_TAX_SAVING))
      (sp.projected_reclaimable_salary - sp.total_autotransferred) th 0).2.2.2
    (fun r hrr => hr r (List.mem_of_mem_filter hrr)) hrfDP1 htsDP1
  simp only [Option.getD_some]
  rw [FinTraq.quantize2_eq_self htsDP2, FinTraq.quantize2_eq_self hrfDP2,
    FinTraq.quantize2_eq_self hafDP]
  linarith

/-- C7 witness: the spec's own scenario — fund 10000, two tax rules
targeting 4000 and 8000 under headroom 5000, one goal rule of 6000. -/
theorem C7_conservation_amended_witness :
    (500 : ℚ) <
      (⟨0, 0, 0, 10000, 0, 0⟩ :
          FinTraq.SalaryAllocationProfile).projected_reclaimable_salary -
        (⟨0, 0, 0, 10000, 0, 0⟩ :
          FinTraq.SalaryAllocationProfile).total_autotransferred ∧
    ((FinTraq.generate_consent_suggestion_plan ⟨0, 0, 0, 10000, 0, 0⟩ 5000
        [⟨1, "PPF", "Tax Saving", 4000, "PPF Acct"⟩,
         ⟨2, "ELSS", "Tax Saving", 8000, "ELSS Acct"⟩,
         ⟨3, "Trip", "GOAL", 6000, "Trip Jar"⟩]).remaining_unallocated.isSome =
      true ∧
    (FinTraq.generate_consent_suggestion_plan ⟨0, 0, 0, 10000, 0, 0⟩ 5000
        [⟨1, "PPF", "Tax Saving", 4000, "PPF Acct"⟩,
         ⟨2, "ELSS", "Tax Saving", 8000, "ELSS Acct"⟩,
         ⟨3, "Trip", "GOAL", 6000, "Trip Jar"⟩]).total_suggested +
      (FinTraq.generate_consent_suggestion_plan ⟨0, 0, 0, 10000, 0, 0⟩ 5000
        [⟨1, "PPF", "Tax Saving", 4000, "PPF Acct"⟩,
         ⟨2, "ELSS", "Tax Saving", 8000, "ELSS Acct"⟩,
         ⟨3, "Trip", "GOAL", 6000, "Trip Jar"⟩]).remaining_unallocated.getD 0 =
      (FinTraq.generate_consent_suggestion_plan ⟨0, 0, 0, 10000, 0, 0⟩ 5000
        [⟨1, "PPF", "Tax Saving", 4000, "PPF Acct"⟩,
         ⟨2, "ELSS", "Tax Saving", 8000, "ELSS Acct"⟩,
         ⟨3, "Trip", "GOAL", 6000, "Trip Jar"⟩]).available_fund) :=
  ⟨by norm_num,
   C7_conservation_amended ⟨0, 0, 0, 10000, 0, 0⟩ 5000
     [⟨1, "PPF", "Tax Saving", 4000, "PPF Acct"⟩,
      ⟨2, "ELSS", "Tax Saving", 8000, "ELSS Acct"⟩,
      ⟨3, "Trip", "GOAL", 6000, "Trip Jar"⟩]
     (by norm_num) ⟨1000000, by norm_num⟩ ⟨0, by norm_num⟩
     ⟨500000, by norm_num⟩
     (by
       intro r hrr
       simp at hrr
       rcases hrr with rfl | rfl | rfl
       · exact ⟨400000, by norm_num⟩
       · exact ⟨800000, by norm_num⟩
       · exact ⟨600000, by norm_num⟩)⟩

/-- C1: `record_consent_and_update_balance` performs no validation of the
consented total against the available fund.  Committing a single 300.00
line item against a profile whose available fund is 100.00 succeeds
(nothing is rejected), and afterwards `total_autotransferred = 300` while
`projected_reclaimable_salary = −200`, so the invariant
`0 ≤ total_autotransferred ≤ projected_reclaimable_salary` is violated. -/
theorem C1_consent_no_validation :
    (FinTraq.record_consent_and_update_balance ⟨0, 0, 0, 100, 0, 0⟩
      [⟨1, "Goal", 300, "GOAL"⟩]).2 = 300 ∧
    (FinTraq.record_consent_and_update_balance ⟨0, 0, 0, 100, 0, 0⟩
      [⟨1, "Goal", 300, "GOAL"⟩]).1.projected_reclaimable_salary = -200 ∧
    (FinTraq.record_consent_and_update_balance ⟨0, 0, 0, 100, 0, 0⟩
      [⟨1, "Goal", 300, "GOAL"⟩]).1.total_autotransferred = 300 ∧
    ¬ ((FinTraq.record_consent_and_update_balance ⟨0, 0, 0, 100, 0, 0⟩
        [⟨1, "Goal", 300, "GOAL"⟩]).1.total_autotransferred ≤
      (FinTraq.record_consent_and_update_balance ⟨0, 0, 0, 100, 0, 0⟩
        [⟨1, "Goal", 300, "GOAL"⟩]).1.projected_reclaimable_salary) := by
  norm_num [FinTraq.record_consent_and_update_balance, FinTraq.committedTotal]

/-- C10: for every non-empty consented plan with committed total `T`,
`record_consent_and_update_balance` mutates both period-profile fields —
it decrements `projected_reclaimable_salary` by `T` and increments
`total_autotransferred` by `T` — so the available fund
`projected_reclaimable_salary − total_autotransferred` used by the next
suggestion drops by `2·T`. -/
theorem C10_consent_double_mutation (sp : FinTraq.SalaryAllocationProfile)
    (plan : List FinTraq.TransferItem) (T : ℚ) (hne : plan ≠ [])
    (hT : FinTraq.committedTotal plan = T) (hpos : 0 < T) :
    (FinTraq.record_consent_and_update_balance sp plan).2 = T ∧
    (FinTraq.record_consent_and_update_balance sp
      plan).1.projected_reclaimable_salary =
      sp.projected_reclaimable_salary - T ∧
    (FinTraq.record_consent_and_update_balance sp
      plan).1.total_autotransferred = sp.total_autotransferred + T ∧
    (FinTraq.record_consent_and_update_balance sp
        plan).1.projected_reclaimable_salary -
      (FinTraq.record_consent_and_update_balance sp
        plan).1.total_autotransferred =
      (sp.projected_reclaimable_salary - sp.total_autotransferred) - 2 * T := by
  unfold FinTraq.record_consent_and_update_balance
  rw [if_neg hne]
  dsimp only
  rw [hT]
  exact ⟨rfl, rfl, rfl, by ring⟩

/-- C10 witness: a 300.00 consent against a 1000.00 fund leaves
`projected = 700`, `autotransferred = 300`, available fund 400 = 1000 − 2·300. -/
theorem C10_consent_double_mutation_witness :
    (([⟨1, "Tax", 300, "Tax Saving"⟩] : List FinTraq.TransferItem) ≠ [] ∧
      FinTraq.committedTotal [⟨1, "Tax", 300, "Tax Saving"⟩] = 300 ∧
      (0 : ℚ) < 300) ∧
    ((FinTraq.record_consent_and_update_balance ⟨0, 0, 0, 1000, 0, 0⟩
        [⟨1, "Tax", 300, "Tax Saving"⟩]).2 = 300 ∧
    (FinTraq.record_consent_and_update_balance ⟨0, 0, 0, 1000, 0, 0⟩
        [⟨1, "Tax", 300, "Tax Saving"⟩]).1.projected_reclaimable_salary =
      (⟨0, 0, 0, 1000, 0, 0⟩ :
        FinTraq.SalaryAllocationProfile).projected_reclaimable_salary - 300 ∧
    (FinTraq.record_consent_and_update_balance ⟨0, 0, 0, 1000, 0, 0⟩
        [⟨1, "Tax", 300, "Tax Saving"⟩]).1.total_autotransferred =
      (⟨0, 0, 0, 1000, 0, 0⟩ :
        FinTraq.SalaryAllocationProfile).total_autotransferred + 300 ∧
    (FinTraq.record_consent_and_update_balance ⟨0, 0, 0, 1000, 0, 0⟩
        [⟨1, "Tax", 300, "Tax Saving"⟩]).1.projected_reclaimable_salary -
      (FinTraq.record_consent_and_update_balance ⟨0, 0, 0, 1000, 0, 0⟩
        [⟨1, "Tax", 300, "Tax Saving"⟩]).1.total_autotransferred =
      ((⟨0, 0, 0, 1000, 0, 0⟩ :
          FinTraq.SalaryAllocationProfile).projected_reclaimable_salary -
        (⟨0, 0, 0, 1000, 0, 0⟩ :
          FinTraq.SalaryAllocationProfile).total_autotransferred) - 2 * 300) :=
  ⟨⟨by simp, by norm_num [FinTraq.committedTotal], by norm_num⟩,
   C10_consent_double_mutation ⟨0, 0, 0, 1000, 0, 0⟩
     [⟨1, "Tax", 300, "Tax Saving"⟩] 300 (by simp)
     (by norm_num [FinTraq.committedTotal]) (by norm_num)⟩
